import Mathlib

/-!
Shallow embedding of the 3D configuration rendering engine of the Velockers
boat-configurator repository (main source: `src/components/BoatViewer.tsx`,
orchestrated by `ConfiguratorContent`), together with proofs of the
specification claims about it.

Conventions used throughout:
* JavaScript strings are Lean `String`s; `string.toLowerCase()` is
  `String.toLower`, `string.toUpperCase()` is `String.toUpper`.
* Colors are kept abstract as the hex strings assigned by the source.
* Numeric material parameters use `ℚ` (the source only ever assigns exact
  decimal constants to them).
* `undefined`-able values are `Option`s.
-/

/-- Embedding of the JavaScript string method `endsWith`, computed on the
character list of the string (so that it evaluates inside the kernel). -/
def jsEndsWith (s suffix : String) : Bool :=
  suffix.data.isSuffixOf s.data

/-- Embedding of the JavaScript string method `startsWith`, computed on the
character list of the string. -/
def jsStartsWith (s pre : String) : Bool :=
  pre.data.isPrefixOf s.data

/-- Embedding of the JavaScript string method `toUpperCase` (all strings the
engine compares are ASCII). -/
def jsToUpper (s : String) : String :=
  ⟨s.data.map Char.toUpper⟩

/-- Embedding of the JavaScript string method `toLowerCase` (all strings the
engine compares are ASCII). -/
def jsToLower (s : String) : String :=
  ⟨s.data.map Char.toLower⟩

/-- Embedding of `DEFAULT_MODEL_IDS` from `BoatViewer.tsx`: the supported set
of model ids. -/
def DEFAULT_MODEL_IDS : List String := ["2.9", "2.9E", "3.3", "3.3E"]

/-- Embedding of `getBaseModelId` from `BoatViewer.tsx`:
`modelId.replace(/E$/, '')` removes a single trailing `E` when present. -/
def getBaseModelId (modelId : String) : String :=
  if jsEndsWith modelId "E" then ⟨modelId.data.dropLast⟩ else modelId

/-- Embedding of `isElectricModel` from `BoatViewer.tsx` (line 324):
`modelId.endsWith('E')`. -/
def isElectricModel (modelId : String) : Bool :=
  jsEndsWith modelId "E"

/-- Embedding of the `GroupVisibilityMapping` interface from the repository's
types module: `groupName`, `modelId` (a base model id), `hiddenByDefault`,
optional `linkedOptionId`. -/
structure GroupVisibilityMapping where
  groupName : String
  modelId : String
  hiddenByDefault : Bool
  linkedOptionId : Option String
  deriving DecidableEq, Repr

/-- Embedding of the mapping lookup in the group-visibility effect of
`BoatModel` (lines 507-510): `groupVisibilityMappings.find(m =>
m.groupName === childName && m.modelId === baseModel)` where
`baseModel = getBaseModelId(modelId)`. -/
def findMapping (mappings : List GroupVisibilityMapping)
    (childName modelId : String) : Option GroupVisibilityMapping :=
  mappings.find? fun m =>
    m.groupName == childName && m.modelId == getBaseModelId modelId

/-- Embedding of the per-node visibility decision of the group-visibility
effect of `BoatModel` (lines 488-527).  `some v` means the effect calls
`setGroupVisibility(child, v)` for a node with this name; `none` means the
node's visibility is left untouched by the effect (no auto-managed name and
no matching mapping). -/
def resolveVisibility (modelId : String)
    (mappings : List GroupVisibilityMapping) (selectedOptions : List String)
    (childName : String) : Option Bool :=
  if childName = "el_motor" then some (isElectricModel modelId)
  else if childName = "battary_V_4_new" then some (isElectricModel modelId)
  else
    match findMapping mappings childName modelId with
    | none => none
    | some mapping =>
      if mapping.hiddenByDefault then
        match mapping.linkedOptionId with
        | some o => some (selectedOptions.contains o)
        | none => some false
      else some true

mutual
/-- Scene-graph node as the visibility effect sees it: a name, whether it is
a mesh, the depth-mask user-data flag, the `visible` and `castShadow`
properties, and the child nodes. -/
inductive SceneNode where
  | mk (name : String) (isMesh : Bool) (depthMaskFlag : Bool) (visible : Bool)
      (castShadow : Bool) (children : SceneForest)
/-- List of child scene nodes (mutual with `SceneNode`). -/
inductive SceneForest where
  | nil : SceneForest
  | cons : SceneNode → SceneForest → SceneForest
end

/-- Name of a scene node. -/
def SceneNode.name : SceneNode → String
  | .mk n _ _ _ _ _ => n

/-- Value of the `visible` property of a scene node. -/
def SceneNode.visible : SceneNode → Bool
  | .mk _ _ _ v _ _ => v

/-- Value of the `castShadow` property of a scene node. -/
def SceneNode.castShadowOf : SceneNode → Bool
  | .mk _ _ _ _ c _ => c

/-- Embedding of the depth-mask detection inside `setGroupVisibility`
(lines 476-479): `userData.depthMask === 1 || userData.depthMask === true`
(folded into the `depthMaskFlag` field) or the node name upper-cased starts
with `WATER_OCCLUDER`. -/
def isDepthMaskName (name : String) (depthMaskFlag : Bool) : Bool :=
  depthMaskFlag || jsStartsWith (jsToUpper name) "WATER_OCCLUDER"

mutual
/-- Embedding of `setGroupVisibility` (lines 466-486): sets `visible` on the
node and, via `object.traverse`, on every descendant; for meshes that are
not depth masks, `castShadow` is set to the same value. -/
def setGroupVisibility (v : Bool) : SceneNode → SceneNode
  | .mk name isMesh dm _ cs ch =>
    .mk name isMesh dm v
      (if isMesh && !isDepthMaskName name dm then v else cs)
      (setGroupVisibilityForest v ch)
/-- Forest version of `setGroupVisibility`. -/
def setGroupVisibilityForest (v : Bool) : SceneForest → SceneForest
  | .nil => .nil
  | .cons n f => .cons (setGroupVisibility v n) (setGroupVisibilityForest v f)
end

mutual
/-- Decides whether every node of a subtree has `visible = v`. -/
def allVisible (v : Bool) : SceneNode → Bool
  | .mk _ _ _ vis _ ch => (vis == v) && allVisibleForest v ch
/-- Forest version of `allVisible`. -/
def allVisibleForest (v : Bool) : SceneForest → Bool
  | .nil => true
  | .cons n f => allVisible v n && allVisibleForest v f
end

/-- Effective visibility assignment reaching a node during the visibility
effect: the node's own resolution when it produces one (unnamed nodes are
skipped by the `if (!childName) return` guard), otherwise the assignment
inherited from the nearest ancestor whose resolution produced one.  Because
`scene.traverse` is a pre-order walk and `setGroupVisibility` rewrites whole
subtrees, the last write to a node is exactly this value. -/
def effVisibility (modelId : String) (mappings : List GroupVisibilityMapping)
    (opts : List String) (inh : Option Bool) (name : String) : Option Bool :=
  if name = "" then inh
  else
    match resolveVisibility modelId mappings opts name with
    | some v => some v
    | none => inh

mutual
/-- Embedding of the whole group-visibility effect (lines 463-527) as a
function on scene trees: `inh` is the visibility assignment inherited from
ancestors already processed by the pre-order `scene.traverse` (pass `none`
at the root). -/
def applyVis (modelId : String) (mappings : List GroupVisibilityMapping)
    (opts : List String) (inh : Option Bool) : SceneNode → SceneNode
  | .mk name isMesh dm vis cs ch =>
    let eff := effVisibility modelId mappings opts inh name
    .mk name isMesh dm (eff.getD vis)
      (match eff with
       | some v => if isMesh && !isDepthMaskName name dm then v else cs
       | none => cs)
      (applyVisForest modelId mappings opts eff ch)
/-- Forest version of `applyVis`. -/
def applyVisForest (modelId : String) (mappings : List GroupVisibilityMapping)
    (opts : List String) (inh : Option Bool) : SceneForest → SceneForest
  | .nil => .nil
  | .cons n f =>
    .cons (applyVis modelId mappings opts inh n)
      (applyVisForest modelId mappings opts inh f)
end

/-- Embedding of the `materialType` prop of `BoatModel`:
`'fiberglass' | 'fullCarbon'`. -/
inductive MaterialType where
  | fiberglass
  | fullCarbon
  deriving DecidableEq, Repr

/-- Embedding of the `hullColorMode` prop of `BoatModel`: `'white' | 'grey'`
(the custom override is the separate boolean `useCustomColor`). -/
inductive HullColorMode where
  | white
  | grey
  deriving DecidableEq, Repr

/-- Embedding of the `waveMode` prop: `'ocean' | 'dry-dock'`. -/
inductive WaveMode where
  | ocean
  | dryDock
  deriving DecidableEq, Repr

/-- Embedding of a `THREE.MeshStandardMaterial` as the color effect of
`BoatModel` reads and writes it: its name and the mutable fields the effect
assigns.  `isStandard = false` stands for a material that is not a
`MeshStandardMaterial` (the `instanceof` guards skip those). -/
structure SMaterial where
  name : String
  color : String
  metalness : ℚ
  roughness : ℚ
  opacity : ℚ
  transparent : Bool
  isStandard : Bool
  deriving DecidableEq, Repr

/-- Embedding of the `originalColors` ref of `BoatModel` (lines 327-353): the
once-captured hull color snapshots, absent when no material of that name was
seen in the loaded scene. -/
structure OriginalColors where
  white : Option String
  grey : Option String
  deriving DecidableEq, Repr

/-- Embedding of a scene mesh as the color effect sees it: its node name and
its material list (`Array.isArray(child.material) ? child.material :
[child.material]`). -/
structure MeshObj where
  name : String
  materials : List SMaterial
  deriving DecidableEq, Repr

/-- Embedding of the color-relevant props of `BoatModel`. -/
structure BoatConfig where
  modelId : String
  color : String
  useCustomColor : Bool
  hullColorMode : HullColorMode
  softDeckColor : Option String
  materialType : MaterialType
  deriving DecidableEq, Repr

/-- Embedding of `MATERIAL_MESHES_BY_MODEL` from `BoatViewer.tsx` (lines
121-126): per-model allowlist of mesh names recolored by material type. -/
def MATERIAL_MESHES_BY_MODEL (modelId : String) : List String :=
  if modelId = "2.9" ∨ modelId = "2.9E" then
    ["mesh1700", "mesh1677", "mesh1676", "mesh1675", "mesh1674", "mesh1701",
     "mesh1673", "mesh1672", "mesh1702", "mesh1671", "mesh1670"]
  else if modelId = "3.3" ∨ modelId = "3.3E" then
    ["mesh98", "mesh105", "mesh1023", "mesh134", "mesh135", "mesh32",
     "mesh34", "mesh35", "mesh20", "mesh36", "mesh37"]
  else []

/-- Embedding of `SOFT_DECK_MESHES_BY_MODEL` from `BoatViewer.tsx` (lines
129-142): per-model allowlist of soft-deck (non-slip) mesh names. -/
def SOFT_DECK_MESHES_BY_MODEL (modelId : String) : List String :=
  if modelId = "2.9" ∨ modelId = "2.9E" then
    ["mesh304", "mesh305", "mesh1712", "mesh16", "mesh293", "mesh1709",
     "mesh6", "mesh5", "mesh1710", "mesh8", "mesh7"]
  else if modelId = "3.3" ∨ modelId = "3.3E" then
    ["mesh983", "mesh984", "mesh1042", "mesh1040", "mesh1043", "mesh1044",
     "mesh1057", "mesh1055", "mesh1056", "mesh1054", "mesh1053"]
  else []

/-- Embedding of `STRIP_MESHES_BY_MODEL` from `BoatViewer.tsx` (lines
144-157): per-model allowlist of stripe mesh names. -/
def STRIP_MESHES_BY_MODEL (modelId : String) : List String :=
  if modelId = "2.9" ∨ modelId = "2.9E" then
    ["mesh0", "mesh1", "mesh1711", "mesh2", "mesh3", "mesh9", "mesh14",
     "mesh13", "mesh1713", "mesh12", "mesh11"]
  else if modelId = "3.3" ∨ modelId = "3.3E" then
    ["mesh1051", "mesh1050", "mesh1049", "mesh1048", "mesh1047", "mesh1052",
     "mesh1058", "mesh1059", "mesh1060", "mesh1061", "mesh1062"]
  else []

/-- Lower-cases a mesh-name allowlist, as in
`(SOFT_DECK_MESHES_BY_MODEL[modelId] || []).map(n => n.toLowerCase())`. -/
def lowerList (l : List String) : List String :=
  l.map jsToLower

/-- Embedding of the hull-color branch of the color effect of `BoatModel`
(lines 374-391), per material: materials named `hull_white` or `hull_grey`
(after `toLowerCase`) take the custom override color when `useCustomColor`,
otherwise the snapshot selected by `hullColorMode`, with fallbacks `#ECECE8`
(white) and `#9EA0A1` (grey) when the snapshot was never captured. -/
def applyHullToMaterial (useCustomColor : Bool) (color : String)
    (mode : HullColorMode) (orig : OriginalColors) (mat : SMaterial) :
    SMaterial :=
  if mat.isStandard = false then mat
  else if jsToLower mat.name = "hull_white" ∨ jsToLower mat.name = "hull_grey" then
    if useCustomColor then { mat with color := color }
    else
      let whiteColor := orig.white.getD "#ECECE8"
      let greyColor := orig.grey.getD "#9EA0A1"
      match mode with
      | .white => { mat with color := whiteColor }
      | .grey => { mat with color := greyColor }
  else mat

/-- Hull-color branch applied to a whole mesh (the effect's inner
`materials.forEach`). -/
def applyHullPass (cfg : BoatConfig) (orig : OriginalColors)
    (mesh : MeshObj) : MeshObj :=
  { mesh with
      materials := mesh.materials.map
        (applyHullToMaterial cfg.useCustomColor cfg.color cfg.hullColorMode orig) }

/-- Embedding of the material-type color constants (lines 404-408):
`#0A0C10` for full carbon, `#C7C7C7` for fiberglass. -/
def materialTypeColor : MaterialType → String
  | .fullCarbon => "#0A0C10"
  | .fiberglass => "#C7C7C7"

/-- Embedding of the material-type assignment per material (lines 400-416):
color by material type, `metalness = 0.5`, `roughness = 0.5`,
`opacity = 1.0`, `transparent = false`. -/
def applyMaterialTypeToMaterial (mt : MaterialType) (mat : SMaterial) :
    SMaterial :=
  if mat.isStandard = false then mat
  else
    { mat with
        color := materialTypeColor mt, metalness := 0.5, roughness := 0.5,
        opacity := 1, transparent := false }

/-- Embedding of the material-type branch of the color effect (lines
398-417): fires when the lower-cased mesh name is in the material allowlist
and in neither the soft-deck nor the strip allowlist. -/
def applyMaterialTypePass (cfg : BoatConfig) (mesh : MeshObj) : MeshObj :=
  let meshName := jsToLower mesh.name
  if meshName ∈ MATERIAL_MESHES_BY_MODEL cfg.modelId
      ∧ meshName ∉ lowerList (SOFT_DECK_MESHES_BY_MODEL cfg.modelId)
      ∧ meshName ∉ lowerList (STRIP_MESHES_BY_MODEL cfg.modelId) then
    { mesh with
        materials := mesh.materials.map
          (applyMaterialTypeToMaterial cfg.materialType) }
  else mesh

/-- Embedding of the soft-deck key decoding (lines 420-433): the upper-cased
key selects one of three fixed (deck-hex, strip-hex) pairs, defaulting to the
first pair. -/
def softDeckPair (sel : String) : String × String :=
  let s := jsToUpper sel
  if s = "#9D622BFF" then ("#9D622B", "#FFFDFC")
  else if s = "#BCBCBCFF" then ("#939393", "#FFFDFC")
  else if s = "#95070BFF" then ("#939393", "#95070B")
  else ("#9D622B", "#FFFDFC")

/-- Embedding of the accent assignment per material (lines 436-456): the
given hex, `metalness = 0`, `roughness = 1`, `opacity = 1.0`,
`transparent = false`. -/
def applyAccentToMaterial (hex : String) (mat : SMaterial) : SMaterial :=
  if mat.isStandard = false then mat
  else
    { mat with
        color := hex, metalness := 0, roughness := 1, opacity := 1,
        transparent := false }

/-- Embedding of the soft-deck/strip accent branch of the color effect
(lines 419-458).  The whole branch is guarded by the JavaScript truthiness of
`softDeckColor`, so it is skipped when the key is `undefined` (or the empty
string).  Deck meshes take the deck hex, strip meshes the strip hex, both
matched on lower-cased names. -/
def applyAccentPass (cfg : BoatConfig) (mesh : MeshObj) : MeshObj :=
  match cfg.softDeckColor with
  | none => mesh
  | some sel =>
    if sel = "" then mesh
    else
      let deckHex := (softDeckPair sel).1
      let stripHex := (softDeckPair sel).2
      let meshName := jsToLower mesh.name
      let mesh1 :=
        if meshName ∈ lowerList (SOFT_DECK_MESHES_BY_MODEL cfg.modelId) then
          { mesh with
              materials := mesh.materials.map (applyAccentToMaterial deckHex) }
        else mesh
      if meshName ∈ lowerList (STRIP_MESHES_BY_MODEL cfg.modelId) then
        { mesh1 with
            materials := mesh1.materials.map (applyAccentToMaterial stripHex) }
      else mesh1

/-- Embedding of the whole per-mesh color effect of `BoatModel` (lines
356-460), in source order: hull branch, then material-type branch, then
accent branch. -/
def applyColorRules (cfg : BoatConfig) (orig : OriginalColors)
    (mesh : MeshObj) : MeshObj :=
  applyAccentPass cfg (applyMaterialTypePass cfg (applyHullPass cfg orig mesh))

/-- Embedding of the `softDeckColor` prop computation of
`ConfiguratorContent`:
`configuration.optionIds.includes('soft-deck') ? softDeckColor : undefined`.
-/
def softDeckColorProp (optionIds : List String)
    (softDeckColor : Option String) : Option String :=
  if optionIds.contains "soft-deck" then softDeckColor else none

/-- Embedding of the state touched by `OrbitControlsWrapper` (lines
164-244): the three orbit-controls enable flags, the `rmbActiveRef` and
`initialCameraYRef` refs, and the camera's vertical position
`camera.position.y` (as an exact rational; the claims about it are about
which value is assigned, not about floating-point rounding). -/
structure ControlsState where
  enableRotate : Bool
  enableZoom : Bool
  enablePan : Bool
  rmbActive : Bool
  initialCameraY : Option ℚ
  cameraY : ℚ
  deriving DecidableEq, Repr

/-- Initial controls state: the `OrbitControls` element is created with
rotate, zoom and pan enabled, `rmbActiveRef = false` and
`initialCameraYRef = null`; `y` is the camera's starting height. -/
def initControls (y : ℚ) : ControlsState :=
  ⟨true, true, true, false, none, y⟩

/-- Embedding of the `onDown` handler (lines 178-198): button 1 is blocked
with no state change; button 2 sets `rmbActiveRef`, disables rotate and
zoom, enables pan, and captures `initialCameraYRef` only when it is still
`null`. -/
def onPointerDown (button : Nat) (s : ControlsState) : ControlsState :=
  if button = 1 then s
  else if button = 2 then
    let s1 := { s with
        rmbActive := true, enableRotate := false, enableZoom := false,
        enablePan := true }
    match s1.initialCameraY with
    | none => { s1 with initialCameraY := some s1.cameraY }
    | some _ => s1
  else s

/-- Embedding of the `onUp` handler (lines 199-208): button 2 clears
`rmbActiveRef` and re-enables rotate and zoom (`initialCameraYRef` is not
reset). -/
def onPointerUp (button : Nat) (s : ControlsState) : ControlsState :=
  if button = 2 then
    { s with rmbActive := false, enableRotate := true, enableZoom := true }
  else s

/-- The `1e-6` threshold used by the per-frame clamps in
`OrbitControlsWrapper`. -/
def cameraEps : ℚ := 1 / 1000000

/-- Embedding of the per-frame camera-height clamp in the `useFrame` callback
(lines 236-241): while `rmbActiveRef` is set and `initialCameraYRef` holds a
value, `camera.position.y` is snapped back to that stored value whenever it
drifted by more than `1e-6`. -/
def frameClampY (s : ControlsState) : ControlsState :=
  if s.rmbActive then
    match s.initialCameraY with
    | some y0 =>
      if |s.cameraY - y0| > cameraEps then { s with cameraY := y0 } else s
    | none => s
  else s

/-- Events driving `OrbitControlsWrapper`: pointer button down/up, an
external camera-height change produced by the orbit controls (rotating,
zooming or screen-space panning all may move `camera.position.y`), and one
animation frame. -/
inductive CamEvent where
  | down (button : Nat)
  | up (button : Nat)
  | move (y : ℚ)
  | frame
  deriving DecidableEq, Repr

/-- One step of the camera/interaction controller. -/
def camStep (s : ControlsState) : CamEvent → ControlsState
  | .down b => onPointerDown b s
  | .up b => onPointerUp b s
  | .move y => { s with cameraY := y }
  | .frame => frameClampY s

/-- Runs the camera/interaction controller over a list of events. -/
def camRun (s : ControlsState) (es : List CamEvent) : ControlsState :=
  es.foldl camStep s

/-- Event trace exercising the pan-only button twice: a first right-button
hold at camera height 1, a release, an orbit move to height 2, and a second
right-button press followed by one frame. -/
def secondPressTrace : List CamEvent :=
  [.down 2, .frame, .up 2, .move 2, .down 2]

/-- Heap model used for the clone-immutability claim.  Three.js meshes
reference material objects by identity; the model represents the shared
material objects as a store (a list indexed by position) and a loaded asset
as the list of store indices its meshes reference. -/
def sessionMutate (f : Nat → SMaterial → SMaterial) (owned : List Nat) :
    Nat → List SMaterial → List SMaterial
  | _, [] => []
  | i, m :: ms =>
    (if i ∈ owned then f i m else m) :: sessionMutate f owned (i + 1) ms

/-- Modelled from the spec: `THREE.Object3D.clone(true)` is third-party
library code whose source is not part of this repository; per the spec the
loader "clones it so the cached original is never mutated" into a "private
deep copy", so the clone is modelled as a deep copy that allocates a fresh
material object (a fresh store index, past the end of the existing store)
for every material of the cached asset, the cloned asset referencing only
those fresh indices. -/
def cloneScene (store : List SMaterial) (assetIds : List Nat) :
    List SMaterial × List Nat :=
  (store ++ store, assetIds.map (fun i => store.length + i))

/-- Result of one `useFrame` tick of `BoatWithRocking` (lines 693-714): the
vertical offset `boat.position.y` and the rotation components it writes. -/
structure MotionFrame where
  posY : ℚ
  pitchRotX : ℚ
  boatRotZ : ℚ
  boatRotX : ℚ
  boatRotY : ℚ
  pitchRotY : ℚ
  pitchRotZ : ℚ
  deriving DecidableEq, Repr

/-- Embedding of the `pitchOffset` constant of `BoatWithRocking`
(`useMemo(() => 0, [])`). -/
def pitchOffset : ℚ := 0

/-- Embedding of the idle-motion animator (lines 693-714).  `sinF` and
`cosF` stand for the platform's `Math.sin` and `Math.cos`; every tick zeroes
`boat.rotation.x/y` and `pitchGroup.rotation.y/z`, then in ocean mode sets
`boat.position.y = 0.32`,
`pitchGroup.rotation.x = pitchOffset + Math.sin(t * 1.2) * 0.0075` and
`boat.rotation.z = Math.cos(t * 1.1) * 0.00625`, while in dry-dock mode it
sets `boat.position.y = 0.34`, `pitchGroup.rotation.x = pitchOffset` and
`boat.rotation.z = 0`. -/
def motionFrame (sinF cosF : ℚ → ℚ) (mode : WaveMode) (t : ℚ) : MotionFrame :=
  match mode with
  | .ocean =>
    ⟨0.32, pitchOffset + sinF (t * 1.2) * 0.0075, cosF (t * 1.1) * 0.00625,
     0, 0, 0, 0⟩
  | .dryDock => ⟨0.34, pitchOffset, 0, 0, 0, 0, 0⟩

/-- Embedding of the water-surface gating in `BoatViewer` (line 876):
`{waveMode === 'ocean' && <OceanWater ... />}`. -/
def oceanWaterGenerated : WaveMode → Bool
  | .ocean => true
  | .dryDock => false

mutual
theorem allVisible_setGroupVisibility (v : Bool) :
    (n : SceneNode) → allVisible v (setGroupVisibility v n) = true
  | .mk name isMesh dm vis cs ch => by
    simp only [setGroupVisibility, allVisible]
    rw [allVisibleForest_setGroupVisibilityForest v ch]
    simp
theorem allVisibleForest_setGroupVisibilityForest (v : Bool) :
    (f : SceneForest) → allVisibleForest v (setGroupVisibilityForest v f) = true
  | .nil => by simp [setGroupVisibilityForest, allVisibleForest]
  | .cons n f => by
    simp only [setGroupVisibilityForest, allVisibleForest]
    rw [allVisible_setGroupVisibility v n,
        allVisibleForest_setGroupVisibilityForest v f]
    simp
end

theorem applyVis_visible_mk (modelId : String)
    (mappings : List GroupVisibilityMapping) (opts : List String)
    (inh : Option Bool) (name : String) (isMesh dm vis cs : Bool)
    (ch : SceneForest) :
    (applyVis modelId mappings opts inh
        (SceneNode.mk name isMesh dm vis cs ch)).visible
      = (effVisibility modelId mappings opts inh name).getD vis := by
  simp [applyVis, SceneNode.visible]

theorem resolveVisibility_not_auto (modelId : String)
    (mappings : List GroupVisibilityMapping) (opts : List String)
    (name : String) (hmotor : name ≠ "el_motor")
    (hbat : name ≠ "battary_V_4_new") :
    resolveVisibility modelId mappings opts name =
      match findMapping mappings name modelId with
      | none => none
      | some mapping =>
        if mapping.hiddenByDefault then
          match mapping.linkedOptionId with
          | some o => some (opts.contains o)
          | none => some false
        else some true := by
  unfold resolveVisibility
  rw [if_neg hmotor, if_neg hbat]

/-- Claim C1: for every named scene node that is not one of the two
auto-managed names, visibility is resolved from the mapping table keyed by
(node name, `getBaseModelId modelId`): no matching entry leaves the node's
visibility unchanged (so a node loaded visible stays visible);
`hiddenByDefault = false` makes it visible; `hiddenByDefault = true` with a
`linkedOptionId` makes it visible exactly when that option is selected;
`hiddenByDefault = true` without a `linkedOptionId` hides it
unconditionally; and the resolved visibility is applied recursively to the
node and all of its descendants by `setGroupVisibility`. -/
theorem claim_C1 (modelId name : String)
    (mappings : List GroupVisibilityMapping) (opts : List String)
    (isMesh dm vis cs : Bool) (ch : SceneForest) (hname : name ≠ "")
    (hmotor : name ≠ "el_motor") (hbat : name ≠ "battary_V_4_new") :
    (findMapping mappings name modelId = none →
        (applyVis modelId mappings opts none
          (SceneNode.mk name isMesh dm vis cs ch)).visible = vis)
  ∧ (∀ m, findMapping mappings name modelId = some m →
        m.hiddenByDefault = false →
        (applyVis modelId mappings opts none
          (SceneNode.mk name isMesh dm vis cs ch)).visible = true)
  ∧ (∀ m o, findMapping mappings name modelId = some m →
        m.hiddenByDefault = true → m.linkedOptionId = some o →
        (applyVis modelId mappings opts none
          (SceneNode.mk name isMesh dm vis cs ch)).visible = opts.contains o)
  ∧ (∀ m, findMapping mappings name modelId = some m →
        m.hiddenByDefault = true → m.linkedOptionId = none →
        (applyVis modelId mappings opts none
          (SceneNode.mk name isMesh dm vis cs ch)).visible = false)
  ∧ (∀ v n, allVisible v (setGroupVisibility v n) = true) := by
  have hres := resolveVisibility_not_auto modelId mappings opts name hmotor hbat
  have heff : effVisibility modelId mappings opts none name
      = match resolveVisibility modelId mappings opts name with
        | some v => some v
        | none => none := by
    unfold effVisibility
    rw [if_neg hname]
  refine ⟨?_, ?_, ?_, ?_, ?_⟩
  · intro h
    rw [applyVis_visible_mk, heff, hres, h]
    rfl
  · intro m h hm
    rw [applyVis_visible_mk, heff, hres, h]
    simp [hm]
  · intro m o h hm ho
    rw [applyVis_visible_mk, heff, hres, h]
    simp [hm, ho]
  · intro m h hm ho
    rw [applyVis_visible_mk, heff, hres, h]
    simp [hm, ho]
  · exact fun v n => allVisible_setGroupVisibility v n

/-- Claim C2: for every supported model id, the two auto-managed node names
`el_motor` and `battary_V_4_new` resolve to visible exactly when the model
id denotes the electric variant (ends with `E`), for every mapping table and
every selection — the auto-managed branch overrides the mapping table. -/
theorem claim_C2 (modelId : String) (h : modelId ∈ DEFAULT_MODEL_IDS)
    (mappings : List GroupVisibilityMapping) (opts : List String)
    (isMesh dm vis cs : Bool) (ch : SceneForest) :
    resolveVisibility modelId mappings opts "el_motor"
        = some (isElectricModel modelId)
  ∧ resolveVisibility modelId mappings opts "battary_V_4_new"
        = some (isElectricModel modelId)
  ∧ (isElectricModel modelId = true ↔ modelId = "2.9E" ∨ modelId = "3.3E")
  ∧ (applyVis modelId mappings opts none
        (SceneNode.mk "el_motor" isMesh dm vis cs ch)).visible
      = isElectricModel modelId
  ∧ (applyVis modelId mappings opts none
        (SceneNode.mk "battary_V_4_new" isMesh dm vis cs ch)).visible
      = isElectricModel modelId := by
  have h1 : resolveVisibility modelId mappings opts "el_motor"
      = some (isElectricModel modelId) := by
    unfold resolveVisibility
    rw [if_pos rfl]
  have h2 : resolveVisibility modelId mappings opts "battary_V_4_new"
      = some (isElectricModel modelId) := by
    unfold resolveVisibility
    rw [if_neg (by decide), if_pos rfl]
  refine ⟨h1, h2, ?_, ?_, ?_⟩
  · simp only [DEFAULT_MODEL_IDS, List.mem_cons, List.not_mem_nil, or_false]
      at h
    rcases h with rfl | rfl | rfl | rfl <;> decide
  · rw [applyVis_visible_mk]
    unfold effVisibility
    rw [if_neg (by decide), h1]
    rfl
  · rw [applyVis_visible_mk]
    unfold effVisibility
    rw [if_neg (by decide), h2]
    rfl

/-- Witness for claim C2 at the electric model `2.9E`. -/
theorem claim_C2_witness :
    resolveVisibility "2.9E" [] [] "el_motor" = some (isElectricModel "2.9E") :=
  (claim_C2 "2.9E" (by decide) [] [] false false true true SceneForest.nil).1

/-- Claim C3: because mapping lookups use the base model id, resolving the
visibility of any non-auto-managed node name is identical under a base model
id and its electric variant, for both supported base/electric pairs. -/
theorem claim_C3 (name : String) (mappings : List GroupVisibilityMapping)
    (opts : List String) (hmotor : name ≠ "el_motor")
    (hbat : name ≠ "battary_V_4_new") :
    resolveVisibility "2.9" mappings opts name
        = resolveVisibility "2.9E" mappings opts name
  ∧ resolveVisibility "3.3" mappings opts name
        = resolveVisibility "3.3E" mappings opts name := by
  have e1 : getBaseModelId "2.9E" = getBaseModelId "2.9" := by decide
  have e2 : getBaseModelId "3.3E" = getBaseModelId "3.3" := by decide
  constructor
  · rw [resolveVisibility_not_auto "2.9" mappings opts name hmotor hbat,
        resolveVisibility_not_auto "2.9E" mappings opts name hmotor hbat]
    unfold findMapping
    rw [e1]
  · rw [resolveVisibility_not_auto "3.3" mappings opts name hmotor hbat,
        resolveVisibility_not_auto "3.3E" mappings opts name hmotor hbat]
    unfold findMapping
    rw [e2]

/-- Witness for claim C1: a node hidden by default and linked to an option
is visible exactly when that option is selected. -/
theorem claim_C1_witness :
    (applyVis "2.9" [⟨"tower_group", "2.9", true, some "tower"⟩] ["tower"]
        none
        (SceneNode.mk "tower_group" false false true true
          SceneForest.nil)).visible = true := by
  have h := (claim_C1 "2.9" "tower_group"
      [⟨"tower_group", "2.9", true, some "tower"⟩] ["tower"] false false true
      true SceneForest.nil (by decide) (by decide) (by decide)).2.2.1
    ⟨"tower_group", "2.9", true, some "tower"⟩ "tower" (by decide) rfl rfl
  rw [h]
  decide

/-- Witness for claim C3 at a concrete node name and mapping table. -/
theorem claim_C3_witness :
    resolveVisibility "2.9" [⟨"swim_platform", "2.9", true, none⟩] []
        "swim_platform"
      = resolveVisibility "2.9E" [⟨"swim_platform", "2.9", true, none⟩] []
        "swim_platform" :=
  (claim_C3 "swim_platform" [⟨"swim_platform", "2.9", true, none⟩] []
    (by decide) (by decide)).1

theorem applyHullToMaterial_isStandard (u : Bool) (c : String)
    (md : HullColorMode) (o : OriginalColors) (mat : SMaterial) :
    (applyHullToMaterial u c md o mat).isStandard = mat.isStandard := by
  unfold applyHullToMaterial
  repeat' split
  all_goals rfl

theorem applyAccentPass_not_listed (cfg : BoatConfig) (mesh : MeshObj)
    (hdeck : jsToLower mesh.name
      ∉ lowerList (SOFT_DECK_MESHES_BY_MODEL cfg.modelId))
    (hstrip : jsToLower mesh.name
      ∉ lowerList (STRIP_MESHES_BY_MODEL cfg.modelId)) :
    applyAccentPass cfg mesh = mesh := by
  unfold applyAccentPass
  cases h : cfg.softDeckColor with
  | none => rfl
  | some sel =>
    by_cases hs : sel = ""
    · simp [hs]
    · simp [hs, hdeck, hstrip]

theorem applyMaterialTypePass_not_listed (cfg : BoatConfig) (mesh : MeshObj)
    (hmat : jsToLower mesh.name ∉ MATERIAL_MESHES_BY_MODEL cfg.modelId) :
    applyMaterialTypePass cfg mesh = mesh := by
  unfold applyMaterialTypePass
  simp [hmat]

/-- Claim C4: with the custom override active both hull slots take the
override color; with it inactive both take the snapshot selected by
`hullColorMode`, falling back to `#ECECE8` (white) and `#9EA0A1` (grey) if
the snapshot was never captured. -/
theorem claim_C4 (useCustom : Bool) (colorHex : String)
    (mode : HullColorMode) (orig : OriginalColors) (mat : SMaterial)
    (hstd : mat.isStandard = true)
    (hname : jsToLower mat.name = "hull_white"
      ∨ jsToLower mat.name = "hull_grey") :
    (useCustom = true →
        (applyHullToMaterial useCustom colorHex mode orig mat).color
          = colorHex)
  ∧ (∀ w, useCustom = false → mode = .white → orig.white = some w →
        (applyHullToMaterial useCustom colorHex mode orig mat).color = w)
  ∧ (useCustom = false → mode = .white → orig.white = none →
        (applyHullToMaterial useCustom colorHex mode orig mat).color
          = "#ECECE8")
  ∧ (∀ g, useCustom = false → mode = .grey → orig.grey = some g →
        (applyHullToMaterial useCustom colorHex mode orig mat).color = g)
  ∧ (useCustom = false → mode = .grey → orig.grey = none →
        (applyHullToMaterial useCustom colorHex mode orig mat).color
          = "#9EA0A1") := by
  have key : applyHullToMaterial useCustom colorHex mode orig mat
      = if useCustom then { mat with color := colorHex }
        else match mode with
          | .white => { mat with color := orig.white.getD "#ECECE8" }
          | .grey => { mat with color := orig.grey.getD "#9EA0A1" } := by
    unfold applyHullToMaterial
    rw [if_neg (by simp [hstd]), if_pos hname]
  refine ⟨?_, ?_, ?_, ?_, ?_⟩
  · intro hc
    subst hc
    simp [key]
  · intro w hc hm hw
    subst hc
    subst hm
    simp [key, hw]
  · intro hc hm hw
    subst hc
    subst hm
    simp [key, hw]
  · intro g hc hm hg
    subst hc
    subst hm
    simp [key, hg]
  · intro hc hm hg
    subst hc
    subst hm
    simp [key, hg]

/-- Witness for claim C4: with the override disabled, mode grey and no
captured grey snapshot, a `hull_grey` material takes the grey fallback. -/
theorem claim_C4_witness :
    (applyHullToMaterial false "#FF6B00" HullColorMode.grey ⟨none, none⟩
        ⟨"hull_grey", "#111111", 0, 1, 1, false, true⟩).color = "#9EA0A1" :=
  (claim_C4 false "#FF6B00" HullColorMode.grey ⟨none, none⟩
      ⟨"hull_grey", "#111111", 0, 1, 1, false, true⟩ rfl
      (by right; decide)).2.2.2.2 rfl rfl rfl

/-- Claim C7: the soft-deck key is matched case-insensitively against three
enumerated keys, each selecting one fixed (deck-hex, strip-hex) pair, any
other key falling back to the first pair; deck meshes receive the deck hex
and strip meshes the strip hex, matched case-insensitively against the
per-model allowlists. -/
theorem claim_C7 (sel : String) (cfg : BoatConfig) (mesh : MeshObj) :
    (jsToUpper sel = "#9D622BFF" →
        softDeckPair sel = ("#9D622B", "#FFFDFC"))
  ∧ (jsToUpper sel = "#BCBCBCFF" →
        softDeckPair sel = ("#939393", "#FFFDFC"))
  ∧ (jsToUpper sel = "#95070BFF" →
        softDeckPair sel = ("#939393", "#95070B"))
  ∧ (jsToUpper sel ≠ "#9D622BFF" → jsToUpper sel ≠ "#BCBCBCFF" →
        jsToUpper sel ≠ "#95070BFF" →
        softDeckPair sel = ("#9D622B", "#FFFDFC"))
  ∧ (cfg.softDeckColor = some sel → sel ≠ "" →
        jsToLower mesh.name
          ∈ lowerList (SOFT_DECK_MESHES_BY_MODEL cfg.modelId) →
        jsToLower mesh.name ∉ lowerList (STRIP_MESHES_BY_MODEL cfg.modelId) →
        applyAccentPass cfg mesh
          = { mesh with
              materials := mesh.materials.map (applyAccentToMaterial (softDeckPair sel).1) })
  ∧ (cfg.softDeckColor = some sel → sel ≠ "" →
        jsToLower mesh.name
          ∉ lowerList (SOFT_DECK_MESHES_BY_MODEL cfg.modelId) →
        jsToLower mesh.name ∈ lowerList (STRIP_MESHES_BY_MODEL cfg.modelId) →
        applyAccentPass cfg mesh
          = { mesh with
              materials := mesh.materials.map (applyAccentToMaterial (softDeckPair sel).2) }) := by
  refine ⟨?_, ?_, ?_, ?_, ?_, ?_⟩
  · intro h
    unfold softDeckPair
    rw [if_pos h]
  · intro h
    unfold softDeckPair
    rw [if_neg (by simp [h]), if_pos h]
  · intro h
    unfold softDeckPair
    rw [if_neg (by simp [h]), if_neg (by simp [h]), if_pos h]
  · intro h1 h2 h3
    unfold softDeckPair
    rw [if_neg h1, if_neg h2, if_neg h3]
  · intro hsel hne hdeck hstrip
    unfold applyAccentPass
    rw [hsel]
    simp [hne, hdeck, hstrip]
  · intro hsel hne hdeck hstrip
    unfold applyAccentPass
    rw [hsel]
    simp [hne, hdeck, hstrip]

/-- Witness for claim C7: the grey key (given in lower case) selects the
(#939393, #FFFDFC) pair. -/
theorem claim_C7_witness :
    softDeckPair "#bcbcbcff" = ("#939393", "#FFFDFC") :=
  (claim_C7 "#bcbcbcff" ⟨"2.9", "#FFFFFF", false, .white, none, .fiberglass⟩
      ⟨"mesh304", []⟩).2.1 (by decide)

theorem applyMaterialTypePass_listed (cfg : BoatConfig) (mesh : MeshObj)
    (hmat : jsToLower mesh.name ∈ MATERIAL_MESHES_BY_MODEL cfg.modelId)
    (hdeck : jsToLower mesh.name
      ∉ lowerList (SOFT_DECK_MESHES_BY_MODEL cfg.modelId))
    (hstrip : jsToLower mesh.name
      ∉ lowerList (STRIP_MESHES_BY_MODEL cfg.modelId)) :
    applyMaterialTypePass cfg mesh
      = { mesh with
          materials := mesh.materials.map (applyMaterialTypeToMaterial cfg.materialType) } := by
  unfold applyMaterialTypePass
  simp [hmat, hdeck, hstrip]

/-- Claim C8: switching the hull settings (custom override, override hex, or
white/grey mode) can change only the two hull material slots — on meshes
outside the three allowlists the whole color pass coincides with the hull
branch and is invariant under `materialType`, the hull branch leaves every
non-hull-named material untouched, and on material-type-driven meshes every
standard material ends at the constants determined solely by `materialType`,
whatever the hull settings are. -/
theorem claim_C8 (cfg : BoatConfig) (orig : OriginalColors) (mesh : MeshObj) :
    (jsToLower mesh.name ∉ MATERIAL_MESHES_BY_MODEL cfg.modelId →
      jsToLower mesh.name
        ∉ lowerList (SOFT_DECK_MESHES_BY_MODEL cfg.modelId) →
      jsToLower mesh.name ∉ lowerList (STRIP_MESHES_BY_MODEL cfg.modelId) →
      ∀ mt1 mt2 : MaterialType,
        applyColorRules { cfg with materialType := mt1 } orig mesh
            = applyColorRules { cfg with materialType := mt2 } orig mesh
        ∧ applyColorRules { cfg with materialType := mt1 } orig mesh
            = applyHullPass cfg orig mesh)
  ∧ (∀ mat : SMaterial, jsToLower mat.name ≠ "hull_white" →
      jsToLower mat.name ≠ "hull_grey" →
      ∀ (u : Bool) (c : String) (md : HullColorMode),
        applyHullToMaterial u c md orig mat = mat)
  ∧ (jsToLower mesh.name ∈ MATERIAL_MESHES_BY_MODEL cfg.modelId →
      jsToLower mesh.name
        ∉ lowerList (SOFT_DECK_MESHES_BY_MODEL cfg.modelId) →
      jsToLower mesh.name ∉ lowerList (STRIP_MESHES_BY_MODEL cfg.modelId) →
      ∀ m ∈ (applyColorRules cfg orig mesh).materials, m.isStandard = true →
        m.color = materialTypeColor cfg.materialType
        ∧ m.metalness = 0.5 ∧ m.roughness = 0.5 ∧ m.opacity = 1
        ∧ m.transparent = false) := by
  refine ⟨?_, ?_, ?_⟩
  · intro hmat hdeck hstrip mt1 mt2
    have key : ∀ mt : MaterialType,
        applyColorRules { cfg with materialType := mt } orig mesh
          = applyHullPass cfg orig mesh := by
      intro mt
      unfold applyColorRules
      rw [show applyHullPass { cfg with materialType := mt } orig mesh
            = applyHullPass cfg orig mesh from rfl]
      rw [applyMaterialTypePass_not_listed { cfg with materialType := mt }
            (applyHullPass cfg orig mesh) hmat]
      exact applyAccentPass_not_listed { cfg with materialType := mt }
        (applyHullPass cfg orig mesh) hdeck hstrip
    exact ⟨(key mt1).trans (key mt2).symm, key mt1⟩
  · intro mat h1 h2 u c md
    unfold applyHullToMaterial
    split
    · rfl
    · rw [if_neg (fun h => h.elim h1 h2)]
  · intro hmat hdeck hstrip m hm hstd
    have e1 : applyColorRules cfg orig mesh
        = { applyHullPass cfg orig mesh with
            materials := (applyHullPass cfg orig mesh).materials.map (applyMaterialTypeToMaterial cfg.materialType) } := by
      unfold applyColorRules
      rw [applyMaterialTypePass_listed cfg (applyHullPass cfg orig mesh)
            hmat hdeck hstrip]
      exact applyAccentPass_not_listed cfg
        { applyHullPass cfg orig mesh with
          materials := (applyHullPass cfg orig mesh).materials.map (applyMaterialTypeToMaterial cfg.materialType) }
        hdeck hstrip
    rw [e1] at hm
    simp only [applyHullPass, List.mem_map] at hm
    obtain ⟨y, ⟨x, hx, rfl⟩, rfl⟩ := hm
    set z := applyHullToMaterial cfg.useCustomColor cfg.color
      cfg.hullColorMode orig x with hz
    by_cases hzs : z.isStandard = false
    · exfalso
      rw [show applyMaterialTypeToMaterial cfg.materialType z = z from by
            unfold applyMaterialTypeToMaterial; rw [if_pos hzs]] at hstd
      rw [hstd] at hzs
      exact absurd hzs (by decide)
    · rw [show applyMaterialTypeToMaterial cfg.materialType z
            = { z with
                color := materialTypeColor cfg.materialType, metalness := 0.5,
                roughness := 0.5, opacity := 1, transparent := false } from by
          unfold applyMaterialTypeToMaterial; rw [if_neg hzs]]
      exact ⟨rfl, rfl, rfl, rfl, rfl⟩

/-- Witness for claim C8: on a mesh outside every allowlist carrying a hull
material, toggling the material type does not change the color pass. -/
theorem claim_C8_witness :
    applyColorRules ⟨"2.9", "#FF6B00", true, .white, none, .fiberglass⟩
        ⟨none, none⟩
        ⟨"hull_body", [⟨"hull_white", "#ECECE8", 0, 1, 1, false, true⟩]⟩
      = applyColorRules ⟨"2.9", "#FF6B00", true, .white, none, .fullCarbon⟩
        ⟨none, none⟩
        ⟨"hull_body", [⟨"hull_white", "#ECECE8", 0, 1, 1, false, true⟩]⟩ :=
  ((claim_C8 ⟨"2.9", "#FF6B00", true, .white, none, .fiberglass⟩ ⟨none, none⟩
      ⟨"hull_body", [⟨"hull_white", "#ECECE8", 0, 1, 1, false, true⟩]⟩).1
    (by decide) (by decide) (by decide) .fiberglass .fullCarbon).1

/-- Claim C10: with no soft-deck key provided the accent branch is a no-op
on every mesh, and the orchestrator passes no key whenever the soft-deck
option is not selected. -/
theorem claim_C10 (cfg : BoatConfig) (mesh : MeshObj)
    (optionIds : List String) (sdc : Option String)
    (hnone : cfg.softDeckColor = none)
    (hopt : optionIds.contains "soft-deck" = false) :
    applyAccentPass cfg mesh = mesh
  ∧ softDeckColorProp optionIds sdc = none := by
  constructor
  · unfold applyAccentPass
    rw [hnone]
  · unfold softDeckColorProp
    rw [hopt]
    rfl

/-- Witness for claim C10 at a concrete configuration without the soft-deck
option. -/
theorem claim_C10_witness :
    applyAccentPass ⟨"2.9", "#FFFFFF", false, .white, none, .fiberglass⟩
        ⟨"mesh304", [⟨"deck", "#9D622B", 0, 1, 1, false, true⟩]⟩
      = ⟨"mesh304", [⟨"deck", "#9D622B", 0, 1, 1, false, true⟩]⟩
  ∧ softDeckColorProp ["tower"] (some "#9D622BFF") = none :=
  claim_C10 ⟨"2.9", "#FFFFFF", false, .white, none, .fiberglass⟩
    ⟨"mesh304", [⟨"deck", "#9D622B", 0, 1, 1, false, true⟩]⟩ ["tower"]
    (some "#9D622BFF") rfl (by decide)

theorem sessionMutate_getElem?_of_not_mem (f : Nat → SMaterial → SMaterial)
    (owned : List Nat) :
    ∀ (store : List SMaterial) (i j : Nat), (i + j) ∉ owned →
      (sessionMutate f owned i store)[j]? = store[j]?
  | [], _, _, _ => rfl
  | m :: ms, i, 0, h => by
    simp only [sessionMutate, List.getElem?_cons_zero, Option.some.injEq]
    rw [if_neg (by simpa using h)]
  | m :: ms, i, j + 1, h => by
    simp only [sessionMutate, List.getElem?_cons_succ]
    exact sessionMutate_getElem?_of_not_mem f owned ms (i + 1) j
      (by rw [show i + 1 + j = i + (j + 1) from by omega]; exact h)

/-- Claim C6: the cached asset is an immutable template — the clone
allocates only fresh material objects (store indices at or past the end of
the existing store), so an arbitrary session mutation of the materials owned
by the clone leaves every material referenced by the cached original asset
unchanged. -/
theorem claim_C6 (store : List SMaterial) (assetIds : List Nat)
    (f : Nat → SMaterial → SMaterial)
    (hwf : ∀ i ∈ assetIds, i < store.length) :
    (∀ j ∈ (cloneScene store assetIds).2, store.length ≤ j)
  ∧ ∀ i ∈ assetIds,
      (sessionMutate f (cloneScene store assetIds).2 0
          (cloneScene store assetIds).1)[i]? = store[i]? := by
  constructor
  · intro j hj
    simp only [cloneScene, List.mem_map] at hj
    obtain ⟨a, _, rfl⟩ := hj
    exact Nat.le_add_right _ _
  · intro i hi
    have hlen : i < store.length := hwf i hi
    have hnot : i ∉ (cloneScene store assetIds).2 := by
      simp only [cloneScene, List.mem_map]
      rintro ⟨a, _, rfl⟩
      omega
    have h0 : (0 + i) ∉ (cloneScene store assetIds).2 := by
      rwa [Nat.zero_add]
    rw [sessionMutate_getElem?_of_not_mem f (cloneScene store assetIds).2
        (cloneScene store assetIds).1 0 i h0]
    exact List.getElem?_append_left hlen

/-- Witness for claim C6: recoloring the clone's single material to the full
carbon constant leaves the cached original's material untouched. -/
theorem claim_C6_witness :
    (sessionMutate (fun _ m => applyMaterialTypeToMaterial .fullCarbon m)
        (cloneScene [⟨"hull_white", "#ECECE8", 0, 1, 1, false, true⟩] [0]).2 0
        (cloneScene [⟨"hull_white", "#ECECE8", 0, 1, 1, false, true⟩]
          [0]).1)[0]?
      = [(⟨"hull_white", "#ECECE8", 0, 1, 1, false, true⟩ : SMaterial)][0]? :=
  (claim_C6 [⟨"hull_white", "#ECECE8", 0, 1, 1, false, true⟩] [0]
      (fun _ m => applyMaterialTypeToMaterial .fullCarbon m)
      (by decide)).2 0 (by decide)

/-- Claim C5 (failing trace): on a second right-button press the per-frame
clamp snaps the camera back to the height captured at the first press
(`initialCameraYRef` is never reset on release), so one frame into the
second hold the camera height differs from its press-time value by 1, far
more than the `1e-6` tolerance — while the enable flags do behave as
claimed. -/
theorem claim_C5_second_press_snaps :
    (camRun (initControls 1) secondPressTrace).rmbActive = true
  ∧ (camRun (initControls 1) secondPressTrace).enableRotate = false
  ∧ (camRun (initControls 1) secondPressTrace).enableZoom = false
  ∧ (camRun (initControls 1) secondPressTrace).enablePan = true
  ∧ (camRun (initControls 1) secondPressTrace).cameraY = 2
  ∧ (camRun (initControls 1)
        (secondPressTrace ++ [CamEvent.frame])).cameraY = 1
  ∧ ¬(|(camRun (initControls 1)
          (secondPressTrace ++ [CamEvent.frame])).cameraY
        - (camRun (initControls 1) secondPressTrace).cameraY| ≤ cameraEps) := by
  have h1 : camRun (initControls 1) secondPressTrace
      = ⟨false, false, true, true, some 1, 2⟩ := by
    norm_num [camRun, secondPressTrace, List.foldl, camStep, onPointerDown,
      onPointerUp, frameClampY, initControls, cameraEps]
  have h2 : camRun (initControls 1) (secondPressTrace ++ [CamEvent.frame])
      = ⟨false, false, true, true, some 1, 1⟩ := by
    norm_num [camRun, secondPressTrace, List.foldl, camStep, onPointerDown,
      onPointerUp, frameClampY, initControls, cameraEps]
  rw [h1, h2]
  norm_num [cameraEps]

/-- Claim C9: in dry-dock mode both dynamic rotation terms are exactly zero
and the vertical offset is the dry-dock constant 0.34 with no water surface;
in ocean mode the vertical offset is 0.32, the pitch is sinusoidal with
amplitude 0.0075 at frequency 1.2, the roll is sinusoidal with the smaller
amplitude 0.00625 at frequency 1.1, and the water surface is generated. -/
theorem claim_C9 (sinF cosF : ℚ → ℚ) (t : ℚ) :
    (motionFrame sinF cosF WaveMode.dryDock t).pitchRotX = 0
  ∧ (motionFrame sinF cosF WaveMode.dryDock t).boatRotZ = 0
  ∧ (motionFrame sinF cosF WaveMode.dryDock t).posY = 0.34
  ∧ oceanWaterGenerated WaveMode.dryDock = false
  ∧ (motionFrame sinF cosF WaveMode.ocean t).posY = 0.32
  ∧ (motionFrame sinF cosF WaveMode.ocean t).pitchRotX
      = sinF (t * 1.2) * 0.0075
  ∧ (motionFrame sinF cosF WaveMode.ocean t).boatRotZ
      = cosF (t * 1.1) * 0.00625
  ∧ ((0.00625 : ℚ) < 0.0075)
  ∧ oceanWaterGenerated WaveMode.ocean = true := by
  refine ⟨rfl, rfl, rfl, rfl, rfl, ?_, rfl, by norm_num, rfl⟩
  show pitchOffset + sinF (t * 1.2) * 0.0075 = sinF (t * 1.2) * 0.0075
  rw [show pitchOffset = 0 from rfl, zero_add]
